import Mathlib

/-!
Shallow embedding of the braintree-go gateway code
(`transaction_gateway.go`, the credit-card gateway file, and
`src/braintree/gateway.go`).

Remote interaction is modelled by an `Env` record: `exec` gives the outcome of
`Braintree.execute` for a given method/path/body, and the `unmarshal...` /
`parse...` fields give the outcome of `encoding/xml` decoding and of the
`resp.transaction()` / `resp.creditCard()` helpers, all of which live outside
this repository's pagination and dispatch logic.  Each gateway operation is a
pure function of the `Env` and its arguments, returning the Go result pair
together with the list of HTTP calls it issued, in order.
-/

namespace Braintree

/-- An HTTP response as seen by the gateway code: a status code and a raw body. -/
structure Response where
  StatusCode : Int
  Body : String
deriving Repr, DecidableEq

/-- Go `error` values that this code can return. -/
inductive GoError where
  /-- Go `invalidResponseError` carrying the raw response. -/
  | invalidResponse (resp : Response)
  /-- an error returned by `Braintree.execute` (transport level). -/
  | httpError (msg : String)
  /-- an error returned by `xml.Unmarshal` or by a response parse helper. -/
  | xmlError (msg : String)
deriving Repr, DecidableEq

/-- A transaction payload; its fields are defined elsewhere in the repository
and are never inspected by the code under study, so only an identifier is kept. -/
structure Transaction where
  id : String
deriving Repr, DecidableEq

/-- A credit card payload; only the token is kept, as in `card.Token`. -/
structure CreditCard where
  Token : String
deriving Repr, DecidableEq

/-- Go `Decimal` is defined elsewhere in the repository; its value is never
inspected here. -/
def Decimal : Type := Int
deriving instance Repr, DecidableEq for Decimal

/-- A `TransactionRequest`; only the `Amount` field is used by the code under
study (`SubmitForSettlement` and `Refund` build one from it). -/
structure TransactionRequest where
  Amount : Option Decimal
deriving Repr, DecidableEq

/-- One field of a search query. -/
inductive SearchField where
  /-- a multi-value field (`name IN (items)`). -/
  | multiField (name : String) (items : List String)
  /-- any other field kind, kept abstract. -/
  | otherField (name : String)
deriving Repr, DecidableEq

/-- A search query: an ordered list of fields. -/
structure SearchQuery where
  fields : List SearchField
deriving Repr, DecidableEq

/-- Modelled from the spec: `SearchQuery.shallowCopy` is defined in a source
file not present here.  The spec describes each page query as "a copy of the
original search query", so the copy carries the same fields. -/
def SearchQuery.shallowCopy (q : SearchQuery) : SearchQuery := q

/-- Modelled from the spec: `SearchQuery.AddMultiField` is defined in a source
file not present here.  The call pattern `query.AddMultiField(name).Items = xs`
installs a multi-value field (the spec's "ids IN (...) filter") holding
exactly `xs`; it is modelled as appending that field to the query. -/
def SearchQuery.addMultiFieldItems (q : SearchQuery) (name : String)
    (items : List String) : SearchQuery :=
  ⟨q.fields ++ [SearchField.multiField name items]⟩

/-- Bodies that the gateway code sends with `execute`. -/
inductive RequestBody where
  /-- a nil body. -/
  | empty
  /-- a `*TransactionRequest` body (possibly nil). -/
  | txRequest (tx : Option TransactionRequest)
  /-- a `*SearchQuery` body. -/
  | query (q : SearchQuery)
  /-- a `*CreditCard` body. -/
  | card (c : CreditCard)
deriving Repr, DecidableEq

/-- One HTTP call as issued through `Braintree.execute`. -/
structure HttpCall where
  method : String
  path : String
  body : RequestBody
deriving Repr, DecidableEq

/-- The decoded body of `transactions/advanced_search_ids`
(`searchResults` with `PageSize` and `IDs.Item`). -/
structure searchResults where
  PageSize : Int
  IDsItem : List String
deriving Repr, DecidableEq

/-- The oracle for everything outside this repository: the transport
(`execute`) and the XML decoding helpers. -/
structure Env where
  exec : HttpCall → Except GoError Response
  /-- Go `resp.transaction()`: Go returns a `(*Transaction, error)` pair. -/
  parseTransactionResp : Response → Option Transaction × Option GoError
  /-- Go `resp.creditCard()`. -/
  parseCreditCardResp : Response → Option CreditCard × Option GoError
  /-- Go `xml.Unmarshal` into `searchResults`. -/
  unmarshalSearchResults : Response → Except GoError searchResults
  /-- Go `xml.Unmarshal` into the advanced-search transaction list. -/
  unmarshalTransactions : Response → Except GoError (List Transaction)
  /-- Go `xml.Unmarshal` into the expiring credit-card list. -/
  unmarshalCreditCards : Response → Except GoError (List CreditCard)

/-- Go slice expression `xs[start:stop]` (total model; see `goSliceInBounds`
for the bounds Go itself enforces by panicking). -/
def goSlice {α : Type} (xs : List α) (start stop : Int) : List α :=
  (xs.take stop.toNat).drop start.toNat

/-- The bounds under which Go evaluates `xs[start:stop]` without panicking. -/
def goSliceInBounds {α : Type} (xs : List α) (start stop : Int) : Prop :=
  0 ≤ start ∧ start ≤ stop ∧ stop ≤ (xs.length : Int)

instance {α : Type} (xs : List α) (start stop : Int) :
    Decidable (goSliceInBounds xs start stop) := by
  unfold goSliceInBounds; infer_instance

/-- The value component of a Go pair built from an `Except`, where a failed
fetch leaves the nil slice (modelled as `[]`). -/
def exceptVal {α : Type} (e : Except GoError (List α)) : List α :=
  match e with
  | .ok v => v
  | .error _ => []

/-- The error component of a Go pair built from an `Except`. -/
def exceptErr {α : Type} (e : Except GoError α) : Option GoError :=
  match e with
  | .ok _ => none
  | .error err => some err

/-- A search result as returned by `TransactionGateway.Search` / `SearchNext`. -/
structure TransactionSearchResult where
  TotalItems : Int
  TotalIDs : List String
  CurrentPageNumber : Int
  PageSize : Int
  Transactions : List Transaction
  searchQuery : SearchQuery
deriving Repr, DecidableEq

/-- The ID list result of `CreditCardGateway.ExpiringBetweenIDs`. -/
structure SearchResult where
  PageSize : Int
  IDs : List String
deriving Repr, DecidableEq

/-- A page of expiring credit cards. -/
structure CreditCardSearchResult where
  TotalItems : Int
  TotalIDs : List String
  CurrentPageNumber : Int
  PageSize : Int
  CreditCards : List CreditCard
deriving Repr, DecidableEq

namespace TransactionGateway

/-- The call issued by `TransactionGateway.Create`. -/
def createCall (tx : Option TransactionRequest) : HttpCall :=
  ⟨"POST", "transactions", RequestBody.txRequest tx⟩

/-- Go `TransactionGateway.Create`: POST `transactions`, accept 201. -/
def Create (env : Env) (tx : Option TransactionRequest) :
    (Option Transaction × Option GoError) × List HttpCall :=
  match env.exec (createCall tx) with
  | .error err => ((none, some err), [createCall tx])
  | .ok resp =>
    if resp.StatusCode = 201 then (env.parseTransactionResp resp, [createCall tx])
    else ((none, some (GoError.invalidResponse resp)), [createCall tx])

/-- The call issued by `TransactionGateway.Refund`. -/
def refundCall (id : String) (tx : Option TransactionRequest) : HttpCall :=
  ⟨"POST", "transactions/" ++ id ++ "/refund", RequestBody.txRequest tx⟩

/-- The request body built by `Refund` from its variadic amount: nil when no
amount is given, otherwise a `TransactionRequest` holding the first amount. -/
def refundBody (amount : List Decimal) : Option TransactionRequest :=
  match amount with
  | [] => none
  | a :: _ => some ⟨some a⟩

/-- Go `TransactionGateway.Refund`: POST `transactions/{id}/refund`,
accept 200 or 201; the body carries the optional variadic amount. -/
def Refund (env : Env) (id : String) (amount : List Decimal) :
    (Option Transaction × Option GoError) × List HttpCall :=
  let tx : Option TransactionRequest := refundBody amount
  match env.exec (refundCall id tx) with
  | .error err => ((none, some err), [refundCall id tx])
  | .ok resp =>
    if resp.StatusCode = 200 ∨ resp.StatusCode = 201 then
      (env.parseTransactionResp resp, [refundCall id tx])
    else ((none, some (GoError.invalidResponse resp)), [refundCall id tx])

/-- The call issued by `TransactionGateway.Void`. -/
def voidCall (id : String) : HttpCall :=
  ⟨"PUT", "transactions/" ++ id ++ "/void", RequestBody.empty⟩

/-- Go `TransactionGateway.Void`: PUT `transactions/{id}/void`, accept 200. -/
def Void (env : Env) (id : String) :
    (Option Transaction × Option GoError) × List HttpCall :=
  match env.exec (voidCall id) with
  | .error err => ((none, some err), [voidCall id])
  | .ok resp =>
    if resp.StatusCode = 200 then (env.parseTransactionResp resp, [voidCall id])
    else ((none, some (GoError.invalidResponse resp)), [voidCall id])

/-- The call issued by `TransactionGateway.Find`. -/
def findCall (id : String) : HttpCall :=
  ⟨"GET", "transactions/" ++ id, RequestBody.empty⟩

/-- Go `TransactionGateway.Find`: GET `transactions/{id}`, accept 200. -/
def Find (env : Env) (id : String) :
    (Option Transaction × Option GoError) × List HttpCall :=
  match env.exec (findCall id) with
  | .error err => ((none, some err), [findCall id])
  | .ok resp =>
    if resp.StatusCode = 200 then (env.parseTransactionResp resp, [findCall id])
    else ((none, some (GoError.invalidResponse resp)), [findCall id])

/-- The call issued by `fetchTransactionIDs`. -/
def fetchIDsCall (query : SearchQuery) : HttpCall :=
  ⟨"POST", "transactions/advanced_search_ids", RequestBody.query query⟩

/-- Go `TransactionGateway.fetchTransactionIDs`: POST the query, then
`xml.Unmarshal` the body into `searchResults`. -/
def fetchTransactionIDs (env : Env) (query : SearchQuery) :
    Except GoError searchResults × List HttpCall :=
  match env.exec (fetchIDsCall query) with
  | .error err => (.error err, [fetchIDsCall query])
  | .ok resp =>
    match env.unmarshalSearchResults resp with
    | .error err => (.error err, [fetchIDsCall query])
    | .ok v => (.ok v, [fetchIDsCall query])

/-- The call issued by `fetchTransactions`. -/
def fetchTransactionsCall (query : SearchQuery) : HttpCall :=
  ⟨"POST", "transactions/advanced_search", RequestBody.query query⟩

/-- Go `TransactionGateway.fetchTransactions`: POST the query, then
`xml.Unmarshal` the body into a transaction list. -/
def fetchTransactions (env : Env) (query : SearchQuery) :
    Except GoError (List Transaction) × List HttpCall :=
  match env.exec (fetchTransactionsCall query) with
  | .error err => (.error err, [fetchTransactionsCall query])
  | .ok resp =>
    match env.unmarshalTransactions resp with
    | .error err => (.error err, [fetchTransactionsCall query])
    | .ok v => (.ok v, [fetchTransactionsCall query])

/-- Go `TransactionGateway.Search`: fetch all matching IDs and the page size,
then fetch the first page (`ids[:min(pageSize, len(ids))]`) and return the
first-page result together with the second fetch's error, if any. -/
def Search (env : Env) (query : SearchQuery) :
    (Option TransactionSearchResult × Option GoError) × List HttpCall :=
  match fetchTransactionIDs env query with
  | (.error err, log) => ((none, some err), log)
  | (.ok searchResult, log) =>
    let pageSize := searchResult.PageSize
    let ids := searchResult.IDsItem
    let endOffset : Int :=
      if pageSize > (ids.length : Int) then (ids.length : Int) else pageSize
    let firstPageQuery :=
      (query.shallowCopy).addMultiFieldItems ("ids") (goSlice ids 0 endOffset)
    let fres := fetchTransactions env firstPageQuery
    let firstPageResult : TransactionSearchResult :=
      { TotalItems := (ids.length : Int)
        TotalIDs := ids
        CurrentPageNumber := 1
        PageSize := pageSize
        Transactions := exceptVal fres.1
        searchQuery := query }
    ((some firstPageResult, exceptErr fres.1), log ++ fres.2)

/-- Go `startOffset := result.CurrentPageNumber * result.PageSize` in `SearchNext`. -/
def searchNextStartOffset (result : TransactionSearchResult) : Int :=
  result.CurrentPageNumber * result.PageSize

/-- Go `endOffset`, after the cap to `len(result.TotalIDs)`, in `SearchNext`. -/
def searchNextEndOffset (result : TransactionSearchResult) : Int :=
  let endOffset := searchNextStartOffset result + result.PageSize
  if endOffset > (result.TotalIDs.length : Int) then (result.TotalIDs.length : Int)
  else endOffset

/-- The ID sublist `result.TotalIDs[startOffset:endOffset]` sent by `SearchNext`. -/
def searchNextSlice (result : TransactionSearchResult) : List String :=
  goSlice result.TotalIDs (searchNextStartOffset result) (searchNextEndOffset result)

/-- Go `TransactionGateway.SearchNext`: compute the next page's offsets, return
`(nil, nil)` once `startOffset >= endOffset`, otherwise re-fetch the page by
an `ids` filter over the sliced sublist. -/
def SearchNext (env : Env) (result : TransactionSearchResult) :
    (Option TransactionSearchResult × Option GoError) × List HttpCall :=
  if searchNextStartOffset result ≥ searchNextEndOffset result then ((none, none), [])
  else
    let nextPageQuery :=
      (result.searchQuery.shallowCopy).addMultiFieldItems ("ids") (searchNextSlice result)
    let fres := fetchTransactions env nextPageQuery
    let nextPageResult : TransactionSearchResult :=
      { TotalItems := result.TotalItems
        TotalIDs := result.TotalIDs
        CurrentPageNumber := result.CurrentPageNumber + 1
        PageSize := result.PageSize
        Transactions := exceptVal fres.1
        searchQuery := result.searchQuery }
    ((some nextPageResult, exceptErr fres.1), fres.2)

end TransactionGateway

namespace CreditCardGateway

/-- Go `(page - 1) * searchResult.PageSize` in `ExpiringBetweenPage`. -/
def expiringStartOffset (searchResult : SearchResult) (page : Int) : Int :=
  (page - 1) * searchResult.PageSize

/-- Go `endOffset`, after the cap to `len(searchResult.IDs)`, in
`ExpiringBetweenPage`. -/
def expiringEndOffset (searchResult : SearchResult) (page : Int) : Int :=
  let endOffset := expiringStartOffset searchResult page + searchResult.PageSize
  if endOffset > (searchResult.IDs.length : Int) then (searchResult.IDs.length : Int)
  else endOffset

/-- The ID sublist `searchResult.IDs[startOffset:endOffset]` sent by
`ExpiringBetweenPage`. -/
def expiringSlice (searchResult : SearchResult) (page : Int) : List String :=
  goSlice searchResult.IDs (expiringStartOffset searchResult page)
    (expiringEndOffset searchResult page)

/-- The query string built by `url.Values.Encode` for the expiring-card
endpoints; dates are kept in their formatted "012006" form, and `Encode`
emits keys in sorted order (`end` before `start`). -/
def expiringQS (fromDate toDate : String) : String :=
  "end=" ++ toDate ++ "&start=" ++ fromDate

/-- The call issued by `fetchExpiringBetween`. -/
def fetchExpiringCall (query : SearchQuery) (fromDate toDate : String) : HttpCall :=
  ⟨"POST", "/payment_methods/all/expiring?" ++ expiringQS fromDate toDate,
    RequestBody.query query⟩

/-- Go `CreditCardGateway.fetchExpiringBetween`: POST the query, then
`xml.Unmarshal` the body into a credit-card list. -/
def fetchExpiringBetween (env : Env) (query : SearchQuery)
    (fromDate toDate : String) :
    Except GoError (List CreditCard) × List HttpCall :=
  match env.exec (fetchExpiringCall query fromDate toDate) with
  | .error err => (.error err, [fetchExpiringCall query fromDate toDate])
  | .ok resp =>
    match env.unmarshalCreditCards resp with
    | .error err => (.error err, [fetchExpiringCall query fromDate toDate])
    | .ok v => (.ok v, [fetchExpiringCall query fromDate toDate])

/-- Go `CreditCardGateway.ExpiringBetweenPage`: compute page offsets from the
requested page number, return `(nil, nil)` once `startOffset >= endOffset`,
otherwise fetch the page by an `ids` filter over the sliced sublist. -/
def ExpiringBetweenPage (env : Env) (fromDate toDate : String)
    (searchResult : SearchResult) (page : Int) :
    (Option CreditCardSearchResult × Option GoError) × List HttpCall :=
  if expiringStartOffset searchResult page ≥ expiringEndOffset searchResult page then
    ((none, none), [])
  else
    let query : SearchQuery :=
      (⟨[]⟩ : SearchQuery).addMultiFieldItems ("ids") (expiringSlice searchResult page)
    let fres := fetchExpiringBetween env query fromDate toDate
    let result : CreditCardSearchResult :=
      { TotalItems := (searchResult.IDs.length : Int)
        TotalIDs := searchResult.IDs
        CurrentPageNumber := page
        PageSize := searchResult.PageSize
        CreditCards := exceptVal fres.1 }
    ((some result, exceptErr fres.1), fres.2)

end CreditCardGateway

end Braintree

/-!
Embedding of `src/braintree/gateway.go`: a separate, minimal gateway stub
living in its own package tree inside this repository.
-/

namespace BraintreeV2

/-- Go `Configuration` is consumed only as a carried value by `NewGateway`; its
fields are defined in a source file not present here, so it is kept as a bare
record of its raw data. -/
structure Configuration where
  raw : String
deriving Repr, DecidableEq

/-- Go `TransactionRequest` of the stub package; never inspected by `Sale`. -/
structure TransactionRequest where
  raw : String
deriving Repr, DecidableEq

/-- Go `type Gateway struct { config Configuration }`. -/
structure Gateway where
  config : Configuration
deriving Repr, DecidableEq

/-- Go `func NewGateway(config Configuration) Gateway`. -/
def NewGateway (config : Configuration) : Gateway := ⟨config⟩

/-- Go `type TransactionGateway struct { parent Gateway }`. -/
structure TransactionGateway where
  parent : Gateway
deriving Repr, DecidableEq

/-- Go `func (this Gateway) Transaction() TransactionGateway`. -/
def Gateway.Transaction (this : Gateway) : TransactionGateway := ⟨this⟩

/-- Go `type TransactionResponse struct{}`. -/
structure TransactionResponse where
deriving Repr, DecidableEq

/-- Go `func (this TransactionGateway) Sale(request TransactionRequest)
TransactionResponse` returns the zero `TransactionResponse{}`. -/
def TransactionGateway.Sale (this : TransactionGateway)
    (request : TransactionRequest) : TransactionResponse := {}

/-- Go `func (this TransactionResponse) IsSuccess() bool` returns `false`. -/
def TransactionResponse.IsSuccess (this : TransactionResponse) : Bool := false

end BraintreeV2

namespace Braintree

/-- A concrete environment in which every remote call succeeds with status 200
and fixed decoded values; used to evaluate the model on concrete inputs. -/
def okEnv : Env where
  exec := fun _ => Except.ok ⟨200, ("<r/>")⟩
  parseTransactionResp := fun _ => (some ⟨("t1")⟩, none)
  parseCreditCardResp := fun _ => (some ⟨("c1")⟩, none)
  unmarshalSearchResults := fun _ => Except.ok ⟨2, [("a"), ("b"), ("c")]⟩
  unmarshalTransactions := fun _ => Except.ok [⟨("t1")⟩]
  unmarshalCreditCards := fun _ => Except.ok [⟨("c1")⟩]

/-- A concrete environment in which every remote call succeeds with status 201. -/
def okEnv201 : Env :=
  { okEnv with exec := fun _ => Except.ok ⟨201, ("<r/>")⟩ }

/-- A concrete environment in which `execute` always fails at transport level. -/
def errEnv : Env :=
  { okEnv with exec := fun _ => Except.error (GoError.httpError ("conn refused")) }

/-- A concrete environment in which every remote call comes back with an
unprocessable-entity status 422. -/
def badEnv : Env :=
  { okEnv with exec := fun _ => Except.ok ⟨422, ("<err/>")⟩ }

/-- A concrete two-element search query used in concrete evaluations. -/
def sampleQuery : SearchQuery :=
  ⟨[SearchField.otherField ("status")]⟩

/-- A concrete non-terminal transaction search result used in evaluations:
page size 2, five IDs, currently on page 1. -/
def sampleResult : TransactionSearchResult where
  TotalItems := 5
  TotalIDs := [("a"), ("b"), ("c"), ("d"), ("e")]
  CurrentPageNumber := 1
  PageSize := 2
  Transactions := [⟨("t0")⟩]
  searchQuery := sampleQuery

/-- A concrete credit-card ID search result: page size 2, five IDs. -/
def sampleSearchResult : SearchResult where
  PageSize := 2
  IDs := [("a"), ("b"), ("c"), ("d"), ("e")]

/-- The sample result, moved to page 3, which is past its five IDs. -/
def sampleResultPage3 : TransactionSearchResult :=
  { sampleResult with CurrentPageNumber := 3 }

/-- A concrete credit-card ID search result whose server-sent page size is 0. -/
def zeroPageSR : SearchResult where
  PageSize := 0
  IDs := [("a")]

/-- The slice both pagers compute for page N of an ID list: the code's
`start = (N-1)*pageSize`, `end = min(start + pageSize, len(ids))` window. -/
def pageSlice (ids : List String) (pageSize N : Int) : List String :=
  goSlice ids ((N - 1) * pageSize)
    (min ((N - 1) * pageSize + pageSize) (ids.length : Int))

/-- An `if a > b then b else a` cap is the binary minimum. -/
theorem ite_gt_eq_min (a b : Int) : (if a > b then b else a) = min a b := by
  rcases lt_or_le b a with h | h
  · rw [if_pos h, min_eq_right h.le]
  · rw [if_neg (not_lt.mpr h), min_eq_left h]

/-- The end offset computed by `SearchNext` is the capped sum
`min(startOffset + PageSize, len(TotalIDs))`. -/
theorem searchNextEndOffset_eq (r : TransactionSearchResult) :
    TransactionGateway.searchNextEndOffset r
      = min (TransactionGateway.searchNextStartOffset r + r.PageSize)
          (r.TotalIDs.length : Int) := by
  unfold TransactionGateway.searchNextEndOffset
  exact ite_gt_eq_min _ _

/-- The end offset computed by `ExpiringBetweenPage` is the capped sum
`min(startOffset + PageSize, len(IDs))`. -/
theorem expiringEndOffset_eq (sr : SearchResult) (page : Int) :
    CreditCardGateway.expiringEndOffset sr page
      = min (CreditCardGateway.expiringStartOffset sr page + sr.PageSize)
          (sr.IDs.length : Int) := by
  unfold CreditCardGateway.expiringEndOffset
  exact ite_gt_eq_min _ _

/-- When the start offset reaches the end offset, `SearchNext` returns the
terminal `(nil, nil)` and issues no HTTP call. -/
theorem SearchNext_terminal (env : Env) (r : TransactionSearchResult)
    (h : TransactionGateway.searchNextEndOffset r
          ≤ TransactionGateway.searchNextStartOffset r) :
    TransactionGateway.SearchNext env r = ((none, none), []) := by
  unfold TransactionGateway.SearchNext
  rw [if_pos h]

/-- When the start offset reaches the end offset, `ExpiringBetweenPage`
returns the terminal `(nil, nil)` and issues no HTTP call. -/
theorem ExpiringBetweenPage_terminal (env : Env) (fromDate toDate : String)
    (sr : SearchResult) (page : Int)
    (h : CreditCardGateway.expiringEndOffset sr page
          ≤ CreditCardGateway.expiringStartOffset sr page) :
    CreditCardGateway.ExpiringBetweenPage env fromDate toDate sr page
      = ((none, none), []) := by
  unfold CreditCardGateway.ExpiringBetweenPage
  rw [if_pos h]

/-- C1: for every pageSize > 0, every ID list, and every page number N ≥ 1,
the page-N fetch (`SearchNext` at CurrentPageNumber = N - 1,
`ExpiringBetweenPage` at page = N) slices the stored ID list exactly to the
half-open interval [(N-1)*pageSize, min(N*pageSize, totalCount)). -/
theorem claim_C1 (pageSize : Int) (ids : List String) (N : Int)
    (hps : 0 < pageSize) (hN : 1 ≤ N)
    (r : TransactionSearchResult) (hcpn : r.CurrentPageNumber = N - 1)
    (hrps : r.PageSize = pageSize) (hids : r.TotalIDs = ids)
    (sr : SearchResult) (hsps : sr.PageSize = pageSize) (hsids : sr.IDs = ids) :
    TransactionGateway.searchNextSlice r
        = goSlice ids ((N - 1) * pageSize) (min (N * pageSize) (ids.length : Int))
      ∧ CreditCardGateway.expiringSlice sr N
        = goSlice ids ((N - 1) * pageSize) (min (N * pageSize) (ids.length : Int)) := by
  constructor
  · unfold TransactionGateway.searchNextSlice
    rw [searchNextEndOffset_eq]
    unfold TransactionGateway.searchNextStartOffset
    rw [hcpn, hrps, hids]
    rw [show (N - 1) * pageSize + pageSize = N * pageSize from by ring]
  · unfold CreditCardGateway.expiringSlice
    rw [expiringEndOffset_eq]
    unfold CreditCardGateway.expiringStartOffset
    rw [hsps, hsids]
    rw [show (N - 1) * pageSize + pageSize = N * pageSize from by ring]

/-- Witness for C1 at pageSize 2, five IDs, page N = 2. -/
theorem claim_C1_witness :
    ((0 : Int) < 2 ∧ (1 : Int) ≤ 2) ∧
    (TransactionGateway.searchNextSlice sampleResult
        = goSlice sampleResult.TotalIDs ((2 - 1) * 2)
            (min (2 * 2) (sampleResult.TotalIDs.length : Int))
      ∧ CreditCardGateway.expiringSlice sampleSearchResult 2
        = goSlice sampleResult.TotalIDs ((2 - 1) * 2)
            (min (2 * 2) (sampleResult.TotalIDs.length : Int))) :=
  ⟨⟨by decide, by decide⟩,
    claim_C1 2 sampleResult.TotalIDs 2 (by decide) (by decide)
      sampleResult rfl rfl rfl sampleSearchResult rfl rfl⟩

/-- C2: when the computed page start offset equals or exceeds the computed end
offset (CurrentPageNumber*PageSize ≥ len(TotalIDs) for `SearchNext`, and
(page-1)*PageSize ≥ min((page-1)*PageSize + PageSize, len(IDs)) for
`ExpiringBetweenPage`), the page fetch returns a nil result and a nil error
and issues no remote fetch. -/
theorem claim_C2 (env : Env) (r : TransactionSearchResult)
    (fromDate toDate : String) (sr : SearchResult) (page : Int)
    (h1 : (r.TotalIDs.length : Int) ≤ r.CurrentPageNumber * r.PageSize)
    (h2 : min (CreditCardGateway.expiringStartOffset sr page + sr.PageSize)
            (sr.IDs.length : Int) ≤ CreditCardGateway.expiringStartOffset sr page) :
    TransactionGateway.SearchNext env r = ((none, none), [])
      ∧ CreditCardGateway.ExpiringBetweenPage env fromDate toDate sr page
        = ((none, none), []) := by
  constructor
  · apply SearchNext_terminal
    rw [searchNextEndOffset_eq]
    exact le_trans (min_le_right _ _) h1
  · apply ExpiringBetweenPage_terminal
    rw [expiringEndOffset_eq]
    exact h2

/-- Witness for C2: page 3 of five IDs at page size 2 for `SearchNext`, and
page 4 for `ExpiringBetweenPage`. -/
theorem claim_C2_witness :
    ((sampleResultPage3.TotalIDs.length : Int)
        ≤ sampleResultPage3.CurrentPageNumber * sampleResultPage3.PageSize)
      ∧ (min (CreditCardGateway.expiringStartOffset sampleSearchResult 4
              + sampleSearchResult.PageSize) (sampleSearchResult.IDs.length : Int)
          ≤ CreditCardGateway.expiringStartOffset sampleSearchResult 4)
      ∧ (TransactionGateway.SearchNext okEnv sampleResultPage3 = ((none, none), [])
          ∧ CreditCardGateway.ExpiringBetweenPage okEnv ("012026") ("022026")
              sampleSearchResult 4 = ((none, none), [])) :=
  ⟨by decide, by decide,
    claim_C2 okEnv sampleResultPage3 ("012026") ("022026") sampleSearchResult 4
      (by decide) (by decide)⟩

/-- Every run of `fetchTransactions` issues exactly its one advanced-search
call, whatever the outcome. -/
theorem fetchTransactions_snd (env : Env) (q : SearchQuery) :
    (TransactionGateway.fetchTransactions env q).2
      = [TransactionGateway.fetchTransactionsCall q] := by
  unfold TransactionGateway.fetchTransactions
  cases env.exec (TransactionGateway.fetchTransactionsCall q) with
  | error e => rfl
  | ok resp =>
    dsimp only
    cases env.unmarshalTransactions resp with
    | error e => rfl
    | ok v => rfl

/-- Every run of `fetchExpiringBetween` issues exactly its one expiring-cards
call, whatever the outcome. -/
theorem fetchExpiringBetween_snd (env : Env) (q : SearchQuery)
    (fromDate toDate : String) :
    (CreditCardGateway.fetchExpiringBetween env q fromDate toDate).2
      = [CreditCardGateway.fetchExpiringCall q fromDate toDate] := by
  unfold CreditCardGateway.fetchExpiringBetween
  cases env.exec (CreditCardGateway.fetchExpiringCall q fromDate toDate) with
  | error e => rfl
  | ok resp =>
    dsimp only
    cases env.unmarshalCreditCards resp with
    | error e => rfl
    | ok v => rfl

/-- C3: a response whose status code is not accepted by the operation yields a
nil result together with an `invalidResponseError` carrying the raw response;
`Create` returns the parsed transaction exactly when the status is 201,
`Refund` exactly when it is 200 or 201 (`Void` and `Find` accept 200 only). -/
theorem claim_C3 (envN envA : Env) (tx : Option TransactionRequest)
    (id idV idF : String) (amount : List Decimal)
    (respN respA respRN respRA respVN respFN : Response)
    (hCN : envN.exec (TransactionGateway.createCall tx) = Except.ok respN)
    (hN201 : respN.StatusCode ≠ 201)
    (hCA : envA.exec (TransactionGateway.createCall tx) = Except.ok respA)
    (hA201 : respA.StatusCode = 201)
    (hRN : envN.exec (TransactionGateway.refundCall id
            (TransactionGateway.refundBody amount)) = Except.ok respRN)
    (hRN200 : respRN.StatusCode ≠ 200) (hRN201 : respRN.StatusCode ≠ 201)
    (hRA : envA.exec (TransactionGateway.refundCall id
            (TransactionGateway.refundBody amount)) = Except.ok respRA)
    (hRAs : respRA.StatusCode = 200 ∨ respRA.StatusCode = 201)
    (hVN : envN.exec (TransactionGateway.voidCall idV) = Except.ok respVN)
    (hVN200 : respVN.StatusCode ≠ 200)
    (hFN : envN.exec (TransactionGateway.findCall idF) = Except.ok respFN)
    (hFN200 : respFN.StatusCode ≠ 200) :
    TransactionGateway.Create envN tx
        = ((none, some (GoError.invalidResponse respN)),
            [TransactionGateway.createCall tx])
      ∧ TransactionGateway.Create envA tx
        = (envA.parseTransactionResp respA, [TransactionGateway.createCall tx])
      ∧ TransactionGateway.Refund envN id amount
        = ((none, some (GoError.invalidResponse respRN)),
            [TransactionGateway.refundCall id (TransactionGateway.refundBody amount)])
      ∧ TransactionGateway.Refund envA id amount
        = (envA.parseTransactionResp respRA,
            [TransactionGateway.refundCall id (TransactionGateway.refundBody amount)])
      ∧ TransactionGateway.Void envN idV
        = ((none, some (GoError.invalidResponse respVN)),
            [TransactionGateway.voidCall idV])
      ∧ TransactionGateway.Find envN idF
        = ((none, some (GoError.invalidResponse respFN)),
            [TransactionGateway.findCall idF]) := by
  refine ⟨?_, ?_, ?_, ?_, ?_, ?_⟩
  · simp only [TransactionGateway.Create, hCN]
    rw [if_neg hN201]
  · simp only [TransactionGateway.Create, hCA]
    rw [if_pos hA201]
  · simp only [TransactionGateway.Refund, hRN]
    rw [if_neg (not_or.mpr ⟨hRN200, hRN201⟩)]
  · simp only [TransactionGateway.Refund, hRA]
    rw [if_pos hRAs]
  · simp only [TransactionGateway.Void, hVN]
    rw [if_neg hVN200]
  · simp only [TransactionGateway.Find, hFN]
    rw [if_neg hFN200]

/-- Witness for C3: status 422 on every call in `badEnv` versus status 201 in
`okEnv201`. -/
theorem claim_C3_witness :
    badEnv.exec (TransactionGateway.createCall none) = Except.ok ⟨422, ("<err/>")⟩
      ∧ (422 : Int) ≠ 201
      ∧ okEnv201.exec (TransactionGateway.createCall none)
          = Except.ok ⟨201, ("<r/>")⟩
      ∧ (TransactionGateway.Create badEnv none
          = ((none, some (GoError.invalidResponse ⟨422, ("<err/>")⟩)),
              [TransactionGateway.createCall none])
        ∧ TransactionGateway.Create okEnv201 none
          = (okEnv201.parseTransactionResp ⟨201, ("<r/>")⟩,
              [TransactionGateway.createCall none])
        ∧ TransactionGateway.Refund badEnv ("tx1") []
          = ((none, some (GoError.invalidResponse ⟨422, ("<err/>")⟩)),
              [TransactionGateway.refundCall ("tx1") (TransactionGateway.refundBody [])])
        ∧ TransactionGateway.Refund okEnv201 ("tx1") []
          = (okEnv201.parseTransactionResp ⟨201, ("<r/>")⟩,
              [TransactionGateway.refundCall ("tx1") (TransactionGateway.refundBody [])])
        ∧ TransactionGateway.Void badEnv ("tx2")
          = ((none, some (GoError.invalidResponse ⟨422, ("<err/>")⟩)),
              [TransactionGateway.voidCall ("tx2")])
        ∧ TransactionGateway.Find badEnv ("tx3")
          = ((none, some (GoError.invalidResponse ⟨422, ("<err/>")⟩)),
              [TransactionGateway.findCall ("tx3")])) :=
  ⟨rfl, by decide, rfl,
    claim_C3 badEnv okEnv201 none ("tx1") ("tx2") ("tx3") []
      ⟨422, ("<err/>")⟩ ⟨201, ("<r/>")⟩ ⟨422, ("<err/>")⟩ ⟨201, ("<r/>")⟩
      ⟨422, ("<err/>")⟩ ⟨422, ("<err/>")⟩
      rfl (by decide) rfl (by decide) rfl (by decide) (by decide) rfl
      (by decide) rfl (by decide) rfl (by decide)⟩

/-- C8: for every non-terminal input, `SearchNext` returns a result whose
TotalItems, TotalIDs, PageSize and stored search query equal the input's and
whose CurrentPageNumber is the input's plus one; the only other field of the
input, `Transactions`, is neither consulted nor changed. -/
theorem claim_C8 (env : Env) (r : TransactionSearchResult)
    (h : TransactionGateway.searchNextStartOffset r
          < TransactionGateway.searchNextEndOffset r) :
    (∃ R e log, TransactionGateway.SearchNext env r = ((some R, e), log)
      ∧ R.TotalItems = r.TotalItems
      ∧ R.TotalIDs = r.TotalIDs
      ∧ R.PageSize = r.PageSize
      ∧ R.searchQuery = r.searchQuery
      ∧ R.CurrentPageNumber = r.CurrentPageNumber + 1)
    ∧ ∀ ts, TransactionGateway.SearchNext env { r with Transactions := ts }
        = TransactionGateway.SearchNext env r := by
  constructor
  · unfold TransactionGateway.SearchNext
    rw [if_neg (not_le.mpr h)]
    exact ⟨_, _, _, rfl, rfl, rfl, rfl, rfl, rfl⟩
  · intro ts
    rfl

/-- Witness for C8 at the sample non-terminal result. -/
theorem claim_C8_witness :
    TransactionGateway.searchNextStartOffset sampleResult
        < TransactionGateway.searchNextEndOffset sampleResult
      ∧ ((∃ R e log, TransactionGateway.SearchNext okEnv sampleResult
            = ((some R, e), log)
          ∧ R.TotalItems = sampleResult.TotalItems
          ∧ R.TotalIDs = sampleResult.TotalIDs
          ∧ R.PageSize = sampleResult.PageSize
          ∧ R.searchQuery = sampleResult.searchQuery
          ∧ R.CurrentPageNumber = sampleResult.CurrentPageNumber + 1)
        ∧ ∀ ts, TransactionGateway.SearchNext okEnv
              { sampleResult with Transactions := ts }
            = TransactionGateway.SearchNext okEnv sampleResult) :=
  ⟨by decide, claim_C8 okEnv sampleResult (by decide)⟩

/-- C4: `Search` first fetches the full ordered ID set plus the page size,
then returns a first-page result with CurrentPageNumber = 1, TotalIDs the
fetched ID list, TotalItems = len(TotalIDs), whose page query is the original
query extended with the first min(PageSize, len(TotalIDs)) IDs. -/
theorem claim_C4 (env : Env) (query : SearchQuery) (resp0 : Response)
    (sr : searchResults)
    (hx : env.exec (TransactionGateway.fetchIDsCall query) = Except.ok resp0)
    (hu : env.unmarshalSearchResults resp0 = Except.ok sr)
    (hps : 0 ≤ sr.PageSize) :
    ∃ R e fpq,
      TransactionGateway.Search env query
          = ((some R, e),
              [TransactionGateway.fetchIDsCall query,
                TransactionGateway.fetchTransactionsCall fpq])
        ∧ fpq = (query.shallowCopy).addMultiFieldItems ("ids")
            (sr.IDsItem.take (min sr.PageSize (sr.IDsItem.length : Int)).toNat)
        ∧ R.CurrentPageNumber = 1
        ∧ R.TotalIDs = sr.IDsItem
        ∧ R.TotalItems = (sr.IDsItem.length : Int)
        ∧ R.PageSize = sr.PageSize
        ∧ R.searchQuery = query := by
  have hfetch : TransactionGateway.fetchTransactionIDs env query
      = (Except.ok sr, [TransactionGateway.fetchIDsCall query]) := by
    unfold TransactionGateway.fetchTransactionIDs
    rw [hx]
    dsimp only
    rw [hu]
  have hslice : goSlice sr.IDsItem 0
      (if sr.PageSize > (sr.IDsItem.length : Int) then (sr.IDsItem.length : Int)
        else sr.PageSize)
      = sr.IDsItem.take (min sr.PageSize (sr.IDsItem.length : Int)).toNat := by
    rw [ite_gt_eq_min]
    simp [goSlice]
  unfold TransactionGateway.Search
  rw [hfetch]
  dsimp only
  rw [fetchTransactions_snd, hslice]
  exact ⟨_, _, _, rfl, rfl, rfl, rfl, rfl, rfl, rfl⟩

/-- Witness for C4 with the three-ID, page-size-2 decode of `okEnv`. -/
theorem claim_C4_witness :
    okEnv.exec (TransactionGateway.fetchIDsCall sampleQuery)
        = Except.ok ⟨200, ("<r/>")⟩
      ∧ okEnv.unmarshalSearchResults ⟨200, ("<r/>")⟩
          = Except.ok ⟨2, [("a"), ("b"), ("c")]⟩
      ∧ (0 : Int) ≤ (⟨2, [("a"), ("b"), ("c")]⟩ : searchResults).PageSize
      ∧ ∃ R e fpq,
          TransactionGateway.Search okEnv sampleQuery
              = ((some R, e),
                  [TransactionGateway.fetchIDsCall sampleQuery,
                    TransactionGateway.fetchTransactionsCall fpq])
            ∧ fpq = (sampleQuery.shallowCopy).addMultiFieldItems ("ids")
                (((⟨2, [("a"), ("b"), ("c")]⟩ : searchResults).IDsItem).take
                  (min (⟨2, [("a"), ("b"), ("c")]⟩ : searchResults).PageSize
                    ((((⟨2, [("a"), ("b"), ("c")]⟩ : searchResults).IDsItem).length : Int))).toNat)
            ∧ R.CurrentPageNumber = 1
            ∧ R.TotalIDs = (⟨2, [("a"), ("b"), ("c")]⟩ : searchResults).IDsItem
            ∧ R.TotalItems
                = (((⟨2, [("a"), ("b"), ("c")]⟩ : searchResults).IDsItem).length : Int)
            ∧ R.PageSize = (⟨2, [("a"), ("b"), ("c")]⟩ : searchResults).PageSize
            ∧ R.searchQuery = sampleQuery :=
  ⟨rfl, rfl, by decide,
    claim_C4 okEnv sampleQuery ⟨200, ("<r/>")⟩ ⟨2, [("a"), ("b"), ("c")]⟩
      rfl rfl (by decide)⟩

/-- C5: every non-terminal page fetch issues exactly one fresh remote call
whose query is a copy of the original search query extended with an "ids"
multi-field holding exactly the sliced ID subset, and the returned page items
are exactly what that remote call produced, not a cached value. -/
theorem claim_C5 (env : Env) (r : TransactionSearchResult)
    (fromDate toDate : String) (sr : SearchResult) (page : Int)
    (h1 : TransactionGateway.searchNextStartOffset r
          < TransactionGateway.searchNextEndOffset r)
    (h2 : CreditCardGateway.expiringStartOffset sr page
          < CreditCardGateway.expiringEndOffset sr page) :
    (∃ R e, TransactionGateway.SearchNext env r
        = ((some R, e),
            [TransactionGateway.fetchTransactionsCall
              ((r.searchQuery.shallowCopy).addMultiFieldItems ("ids")
                (TransactionGateway.searchNextSlice r))])
      ∧ R.Transactions
          = exceptVal (TransactionGateway.fetchTransactions env
              ((r.searchQuery.shallowCopy).addMultiFieldItems ("ids")
                (TransactionGateway.searchNextSlice r))).1)
    ∧ (∃ C e, CreditCardGateway.ExpiringBetweenPage env fromDate toDate sr page
        = ((some C, e),
            [CreditCardGateway.fetchExpiringCall
              ((⟨[]⟩ : SearchQuery).addMultiFieldItems ("ids")
                (CreditCardGateway.expiringSlice sr page)) fromDate toDate])
      ∧ C.CreditCards
          = exceptVal (CreditCardGateway.fetchExpiringBetween env
              ((⟨[]⟩ : SearchQuery).addMultiFieldItems ("ids")
                (CreditCardGateway.expiringSlice sr page)) fromDate toDate).1) := by
  constructor
  · unfold TransactionGateway.SearchNext
    rw [if_neg (not_le.mpr h1)]
    dsimp only
    rw [fetchTransactions_snd]
    exact ⟨_, _, rfl, rfl⟩
  · unfold CreditCardGateway.ExpiringBetweenPage
    rw [if_neg (not_le.mpr h2)]
    dsimp only
    rw [fetchExpiringBetween_snd]
    exact ⟨_, _, rfl, rfl⟩

/-- Witness for C5 at the sample non-terminal results, page 2. -/
theorem claim_C5_witness :
    TransactionGateway.searchNextStartOffset sampleResult
        < TransactionGateway.searchNextEndOffset sampleResult
      ∧ CreditCardGateway.expiringStartOffset sampleSearchResult 2
          < CreditCardGateway.expiringEndOffset sampleSearchResult 2
      ∧ ((∃ R e, TransactionGateway.SearchNext okEnv sampleResult
            = ((some R, e),
                [TransactionGateway.fetchTransactionsCall
                  ((sampleResult.searchQuery.shallowCopy).addMultiFieldItems ("ids")
                    (TransactionGateway.searchNextSlice sampleResult))])
          ∧ R.Transactions
              = exceptVal (TransactionGateway.fetchTransactions okEnv
                  ((sampleResult.searchQuery.shallowCopy).addMultiFieldItems ("ids")
                    (TransactionGateway.searchNextSlice sampleResult))).1)
        ∧ (∃ C e, CreditCardGateway.ExpiringBetweenPage okEnv ("012026") ("022026")
              sampleSearchResult 2
            = ((some C, e),
                [CreditCardGateway.fetchExpiringCall
                  ((⟨[]⟩ : SearchQuery).addMultiFieldItems ("ids")
                    (CreditCardGateway.expiringSlice sampleSearchResult 2))
                  ("012026") ("022026")])
          ∧ C.CreditCards
              = exceptVal (CreditCardGateway.fetchExpiringBetween okEnv
                  ((⟨[]⟩ : SearchQuery).addMultiFieldItems ("ids")
                    (CreditCardGateway.expiringSlice sampleSearchResult 2))
                  ("012026") ("022026")).1)) :=
  ⟨by decide, by decide,
    claim_C5 okEnv sampleResult ("012026") ("022026") sampleSearchResult 2
      (by decide) (by decide)⟩

/-- With a natural page size p, page k+1's slice is the k-th length-p chunk
of the ID list. -/
theorem pageSlice_natCast (ids : List String) (p k : Nat) :
    pageSlice ids (p : Int) ((k : Int) + 1) = (ids.drop (k * p)).take p := by
  unfold pageSlice goSlice
  have h2 : ((k : Int) + 1 - 1) * (p : Int) + (p : Int) = ((k * p + p : Nat) : Int) := by
    push_cast
    ring
  have h1 : ((k : Int) + 1 - 1) * (p : Int) = ((k * p : Nat) : Int) := by
    push_cast
    ring
  rw [h2, h1, ← Nat.cast_min, Int.toNat_natCast, Int.toNat_natCast, List.drop_take,
    List.take_eq_take, List.length_drop]
  have h3 : ∃ a, k * p = a := ⟨k * p, rfl⟩
  obtain ⟨a, ha⟩ := h3
  rw [ha]
  omega

/-- Past the last page the computed slice window is empty. -/
theorem pageSlice_eq_nil (ids : List String) (p : Nat) (N : Int)
    (hlen : (ids.length : Int) ≤ (N - 1) * (p : Int)) :
    pageSlice ids (p : Int) N = [] := by
  unfold pageSlice goSlice
  rw [List.drop_eq_nil_iff, List.length_take]
  have h1 : ids.length ≤ ((N - 1) * (p : Int)).toNat := by
    have := Int.toNat_le_toNat hlen
    rwa [Int.toNat_natCast] at this
  exact le_trans (min_le_right _ _) h1

/-- Concatenating the first n length-p chunks of a list of length at most n*p
recovers the list. -/
theorem chunks_flatten (p : Nat) (hp : 0 < p) :
    ∀ (n : Nat) (ids : List String), ids.length ≤ n * p →
      ((List.range n).map (fun k => (ids.drop (k * p)).take p)).flatten = ids := by
  intro n
  induction n with
  | zero =>
    intro ids h
    simp only [Nat.zero_mul, Nat.le_zero] at h
    have hnil : ids = [] := List.eq_nil_of_length_eq_zero h
    simp [hnil]
  | succ n ih =>
    intro ids h
    rw [List.range_succ_eq_map]
    simp only [List.map_cons, List.map_map, List.flatten_cons, Nat.zero_mul,
      List.drop_zero]
    have hmap : (List.range n).map ((fun k => (ids.drop (k * p)).take p) ∘ Nat.succ)
        = (List.range n).map (fun k => ((ids.drop p).drop (k * p)).take p) := by
      apply List.map_congr_left
      intro k _
      simp only [Function.comp_apply]
      rw [List.drop_drop]
      congr 2
      rw [Nat.succ_mul, Nat.add_comm]
    have hlen : (ids.drop p).length ≤ n * p := by
      rw [List.length_drop, Nat.succ_mul] at *
      have h3 : ∃ a, n * p = a := ⟨n * p, rfl⟩
      obtain ⟨a, ha⟩ := h3
      rw [ha] at h ⊢
      omega
    rw [hmap, ih (ids.drop p) hlen]
    exact List.take_append_drop p ids

/-- C6: for pageSize > 0 the per-page slices are consecutive length-pageSize
chunks of the ID list (hence pairwise disjoint and in list order), their
concatenation over the non-terminal pages is the full ID list, every later
page's slice is empty, and these slices are exactly the ones `SearchNext`
and `ExpiringBetweenPage` send. -/
theorem claim_C6 (ids : List String) (pageSize : Int) (n : Nat)
    (hps : 0 < pageSize) (hn : ids.length ≤ n * pageSize.toNat) :
    (((List.range n).map
          (fun (k : Nat) => pageSlice ids pageSize ((k : Int) + 1))).flatten = ids)
      ∧ (∀ k : Nat, pageSlice ids pageSize ((k : Int) + 1)
          = (ids.drop (k * pageSize.toNat)).take pageSize.toNat)
      ∧ (∀ N : Int, (n : Int) < N → pageSlice ids pageSize N = [])
      ∧ (∀ r : TransactionSearchResult,
          TransactionGateway.searchNextSlice r
            = pageSlice r.TotalIDs r.PageSize (r.CurrentPageNumber + 1))
      ∧ (∀ (sr : SearchResult) (page : Int),
          CreditCardGateway.expiringSlice sr page
            = pageSlice sr.IDs sr.PageSize page) := by
  have hlink1 : ∀ r : TransactionSearchResult,
      TransactionGateway.searchNextSlice r
        = pageSlice r.TotalIDs r.PageSize (r.CurrentPageNumber + 1) := by
    intro r
    unfold TransactionGateway.searchNextSlice pageSlice
    rw [searchNextEndOffset_eq]
    unfold TransactionGateway.searchNextStartOffset
    rw [show r.CurrentPageNumber + 1 - 1 = r.CurrentPageNumber from by ring]
  have hlink2 : ∀ (sr : SearchResult) (page : Int),
      CreditCardGateway.expiringSlice sr page
        = pageSlice sr.IDs sr.PageSize page := by
    intro sr page
    unfold CreditCardGateway.expiringSlice pageSlice
    rw [expiringEndOffset_eq]
    unfold CreditCardGateway.expiringStartOffset
    rfl
  lift pageSize to ℕ using hps.le with p
  have hp : 0 < p := by exact_mod_cast hps
  rw [Int.toNat_natCast] at hn
  refine ⟨?_, ?_, ?_, hlink1, hlink2⟩
  · have hchunks := chunks_flatten p hp n ids hn
    have hmapeq : (List.range n).map
          (fun (k : Nat) => pageSlice ids ((p : Nat) : Int) ((k : Int) + 1))
        = (List.range n).map (fun k => (ids.drop (k * p)).take p) :=
      List.map_congr_left (fun k _ => pageSlice_natCast ids p k)
    rw [hmapeq]
    exact hchunks
  · intro k
    rw [Int.toNat_natCast]
    exact pageSlice_natCast ids p k
  · intro N hN
    apply pageSlice_eq_nil
    have h1 : (ids.length : Int) ≤ (n : Int) * (p : Int) := by exact_mod_cast hn
    have h2 : (n : Int) * (p : Int) ≤ (N - 1) * (p : Int) := by
      apply mul_le_mul_of_nonneg_right _ (by positivity)
      omega
    exact h1.trans h2

/-- Witness for C6: five IDs at page size 2 fit in three pages. -/
theorem claim_C6_witness :
    ((0 : Int) < 2
        ∧ [("a"), ("b"), ("c"), ("d"), ("e")].length ≤ 3 * (2 : Int).toNat)
      ∧ ((((List.range 3).map
            (fun (k : Nat) => pageSlice [("a"), ("b"), ("c"), ("d"), ("e")] 2
              ((k : Int) + 1))).flatten = [("a"), ("b"), ("c"), ("d"), ("e")])
        ∧ (∀ k : Nat, pageSlice [("a"), ("b"), ("c"), ("d"), ("e")] 2 ((k : Int) + 1)
            = ([("a"), ("b"), ("c"), ("d"), ("e")].drop (k * (2 : Int).toNat)).take
                (2 : Int).toNat)
        ∧ (∀ N : Int, (3 : Int) < N →
            pageSlice [("a"), ("b"), ("c"), ("d"), ("e")] 2 N = [])
        ∧ (∀ r : TransactionSearchResult,
            TransactionGateway.searchNextSlice r
              = pageSlice r.TotalIDs r.PageSize (r.CurrentPageNumber + 1))
        ∧ (∀ (sr : SearchResult) (page : Int),
            CreditCardGateway.expiringSlice sr page
              = pageSlice sr.IDs sr.PageSize page)) :=
  ⟨⟨by decide, by decide⟩,
    claim_C6 [("a"), ("b"), ("c"), ("d"), ("e")] 2 3 (by decide) (by decide)⟩

/-- C7 counterexample: on a non-terminal page with a failing transport,
`SearchNext` returns a non-nil result together with the execute error, so "the
operation immediately returns a nil result and that error" fails here. -/
theorem claim_C7_counterexample :
    errEnv.exec (TransactionGateway.fetchTransactionsCall
        ((sampleResult.searchQuery.shallowCopy).addMultiFieldItems ("ids")
          (TransactionGateway.searchNextSlice sampleResult)))
        = Except.error (GoError.httpError ("conn refused"))
      ∧ (TransactionGateway.SearchNext errEnv sampleResult).1.1 ≠ none
      ∧ (TransactionGateway.SearchNext errEnv sampleResult).1.2
          = some (GoError.httpError ("conn refused")) :=
  ⟨rfl, by decide, by decide⟩

/-- C7 (amended): no gateway operation retries: when the underlying execute
call fails, the operation issues no further HTTP call and returns that error;
`Create` (like the other single-request operations) and `Search`'s initial ID
fetch return a nil result with it, while a failed page-content fetch in
`SearchNext` returns the partially built page result, whose transaction list
is empty, alongside the error rather than a nil result. -/
theorem claim_C7 (env : Env) (tx : Option TransactionRequest)
    (query : SearchQuery) (r : TransactionSearchResult) (eC eS eN : GoError)
    (hC : env.exec (TransactionGateway.createCall tx) = Except.error eC)
    (hS : env.exec (TransactionGateway.fetchIDsCall query) = Except.error eS)
    (hr : TransactionGateway.searchNextStartOffset r
          < TransactionGateway.searchNextEndOffset r)
    (hN : env.exec (TransactionGateway.fetchTransactionsCall
            ((r.searchQuery.shallowCopy).addMultiFieldItems ("ids")
              (TransactionGateway.searchNextSlice r))) = Except.error eN) :
    TransactionGateway.Create env tx
        = ((none, some eC), [TransactionGateway.createCall tx])
      ∧ TransactionGateway.Search env query
          = ((none, some eS), [TransactionGateway.fetchIDsCall query])
      ∧ ∃ R, TransactionGateway.SearchNext env r
            = ((some R, some eN),
                [TransactionGateway.fetchTransactionsCall
                  ((r.searchQuery.shallowCopy).addMultiFieldItems ("ids")
                    (TransactionGateway.searchNextSlice r))])
          ∧ R.Transactions = [] := by
  refine ⟨?_, ?_, ?_⟩
  · simp only [TransactionGateway.Create, hC]
  · have hfe : TransactionGateway.fetchTransactionIDs env query
        = (Except.error eS, [TransactionGateway.fetchIDsCall query]) := by
      unfold TransactionGateway.fetchTransactionIDs
      rw [hS]
    unfold TransactionGateway.Search
    rw [hfe]
  · have hft : TransactionGateway.fetchTransactions env
        ((r.searchQuery.shallowCopy).addMultiFieldItems ("ids")
          (TransactionGateway.searchNextSlice r))
        = (Except.error eN,
            [TransactionGateway.fetchTransactionsCall
              ((r.searchQuery.shallowCopy).addMultiFieldItems ("ids")
                (TransactionGateway.searchNextSlice r))]) := by
      unfold TransactionGateway.fetchTransactions
      rw [hN]
    unfold TransactionGateway.SearchNext
    rw [if_neg (not_le.mpr hr)]
    dsimp only
    rw [hft]
    exact ⟨_, rfl, rfl⟩

/-- Witness for C7 (amended) with the always-failing transport. -/
theorem claim_C7_witness :
    errEnv.exec (TransactionGateway.createCall none)
        = Except.error (GoError.httpError ("conn refused"))
      ∧ errEnv.exec (TransactionGateway.fetchIDsCall sampleQuery)
          = Except.error (GoError.httpError ("conn refused"))
      ∧ TransactionGateway.searchNextStartOffset sampleResult
          < TransactionGateway.searchNextEndOffset sampleResult
      ∧ errEnv.exec (TransactionGateway.fetchTransactionsCall
            ((sampleResult.searchQuery.shallowCopy).addMultiFieldItems ("ids")
              (TransactionGateway.searchNextSlice sampleResult)))
          = Except.error (GoError.httpError ("conn refused"))
      ∧ (TransactionGateway.Create errEnv none
          = ((none, some (GoError.httpError ("conn refused"))),
              [TransactionGateway.createCall none])
        ∧ TransactionGateway.Search errEnv sampleQuery
            = ((none, some (GoError.httpError ("conn refused"))),
                [TransactionGateway.fetchIDsCall sampleQuery])
        ∧ ∃ R, TransactionGateway.SearchNext errEnv sampleResult
              = ((some R, some (GoError.httpError ("conn refused"))),
                  [TransactionGateway.fetchTransactionsCall
                    ((sampleResult.searchQuery.shallowCopy).addMultiFieldItems ("ids")
                      (TransactionGateway.searchNextSlice sampleResult))])
            ∧ R.Transactions = []) :=
  ⟨rfl, rfl, by decide, rfl,
    claim_C7 errEnv none sampleQuery sampleResult
      (GoError.httpError ("conn refused")) (GoError.httpError ("conn refused"))
      (GoError.httpError ("conn refused")) rfl rfl (by decide) rfl⟩

/-- C9 counterexample: at page 0 with a server-sent page size of 0, the
computed start offset is 0, not negative, and `ExpiringBetweenPage`
short-circuits to the terminal result instead of evaluating an out-of-bounds
slice, so the claim's page < 1 clause fails as stated. -/
theorem claim_C9_counterexample :
    ¬ (CreditCardGateway.expiringStartOffset zeroPageSR 0 < 0)
      ∧ CreditCardGateway.ExpiringBetweenPage okEnv ("012026") ("022026")
          zeroPageSR 0 = ((none, none), []) :=
  ⟨by decide, by decide⟩

/-- C9 (amended): under page ≥ 1 and PageSize ≥ 0 (CurrentPageNumber ≥ 1 and
PageSize ≥ 0 for `SearchNext`), a non-short-circuiting page fetch has slice
offsets with 0 ≤ start < end ≤ len(IDs), so the slicing is in bounds; and for
page < 1 with PageSize > 0 the start offset is negative, the operation does
not short-circuit, and the slice expression is out of bounds. -/
theorem claim_C9 (r : TransactionSearchResult) (sr : SearchResult)
    (page pageLow : Int)
    (hpage : 1 ≤ page) (hpsE : 0 ≤ sr.PageSize)
    (h1 : CreditCardGateway.expiringStartOffset sr page
          < CreditCardGateway.expiringEndOffset sr page)
    (hcpn : 1 ≤ r.CurrentPageNumber) (hpsT : 0 ≤ r.PageSize)
    (h2 : TransactionGateway.searchNextStartOffset r
          < TransactionGateway.searchNextEndOffset r)
    (hlow : pageLow < 1) (hpsPos : 0 < sr.PageSize) :
    (0 ≤ CreditCardGateway.expiringStartOffset sr page
      ∧ CreditCardGateway.expiringEndOffset sr page ≤ (sr.IDs.length : Int)
      ∧ goSliceInBounds sr.IDs (CreditCardGateway.expiringStartOffset sr page)
          (CreditCardGateway.expiringEndOffset sr page))
    ∧ (0 ≤ TransactionGateway.searchNextStartOffset r
      ∧ TransactionGateway.searchNextEndOffset r ≤ (r.TotalIDs.length : Int)
      ∧ goSliceInBounds r.TotalIDs (TransactionGateway.searchNextStartOffset r)
          (TransactionGateway.searchNextEndOffset r))
    ∧ (CreditCardGateway.expiringStartOffset sr pageLow < 0
      ∧ CreditCardGateway.expiringStartOffset sr pageLow
          < CreditCardGateway.expiringEndOffset sr pageLow
      ∧ ¬ goSliceInBounds sr.IDs (CreditCardGateway.expiringStartOffset sr pageLow)
          (CreditCardGateway.expiringEndOffset sr pageLow)) := by
  have hs1 : 0 ≤ CreditCardGateway.expiringStartOffset sr page := by
    unfold CreditCardGateway.expiringStartOffset
    exact mul_nonneg (by omega) hpsE
  have he1 : CreditCardGateway.expiringEndOffset sr page ≤ (sr.IDs.length : Int) := by
    rw [expiringEndOffset_eq]
    exact min_le_right _ _
  have hs2 : 0 ≤ TransactionGateway.searchNextStartOffset r := by
    unfold TransactionGateway.searchNextStartOffset
    exact mul_nonneg (by omega) hpsT
  have he2 : TransactionGateway.searchNextEndOffset r ≤ (r.TotalIDs.length : Int) := by
    rw [searchNextEndOffset_eq]
    exact min_le_right _ _
  have hneg : CreditCardGateway.expiringStartOffset sr pageLow < 0 := by
    unfold CreditCardGateway.expiringStartOffset
    exact mul_neg_of_neg_of_pos (by omega) hpsPos
  have hlt : CreditCardGateway.expiringStartOffset sr pageLow
      < CreditCardGateway.expiringEndOffset sr pageLow := by
    rw [expiringEndOffset_eq]
    exact lt_min (lt_add_of_pos_right _ hpsPos)
      (lt_of_lt_of_le hneg (Int.natCast_nonneg _))
  exact ⟨⟨hs1, he1, hs1, h1.le, he1⟩, ⟨hs2, he2, hs2, h2.le, he2⟩,
    hneg, hlt, fun hb => absurd hb.1 (not_le.mpr hneg)⟩

/-- Witness for C9 (amended): five IDs at page size 2 with page 2 and the
out-of-range page 0. -/
theorem claim_C9_witness :
    ((1 : Int) ≤ 2 ∧ (0 : Int) ≤ sampleSearchResult.PageSize
      ∧ CreditCardGateway.expiringStartOffset sampleSearchResult 2
          < CreditCardGateway.expiringEndOffset sampleSearchResult 2
      ∧ (1 : Int) ≤ sampleResult.CurrentPageNumber
      ∧ (0 : Int) ≤ sampleResult.PageSize
      ∧ TransactionGateway.searchNextStartOffset sampleResult
          < TransactionGateway.searchNextEndOffset sampleResult
      ∧ (0 : Int) < 1 ∧ (0 : Int) < sampleSearchResult.PageSize)
    ∧ ((0 ≤ CreditCardGateway.expiringStartOffset sampleSearchResult 2
          ∧ CreditCardGateway.expiringEndOffset sampleSearchResult 2
              ≤ (sampleSearchResult.IDs.length : Int)
          ∧ goSliceInBounds sampleSearchResult.IDs
              (CreditCardGateway.expiringStartOffset sampleSearchResult 2)
              (CreditCardGateway.expiringEndOffset sampleSearchResult 2))
        ∧ (0 ≤ TransactionGateway.searchNextStartOffset sampleResult
          ∧ TransactionGateway.searchNextEndOffset sampleResult
              ≤ (sampleResult.TotalIDs.length : Int)
          ∧ goSliceInBounds sampleResult.TotalIDs
              (TransactionGateway.searchNextStartOffset sampleResult)
              (TransactionGateway.searchNextEndOffset sampleResult))
        ∧ (CreditCardGateway.expiringStartOffset sampleSearchResult 0 < 0
          ∧ CreditCardGateway.expiringStartOffset sampleSearchResult 0
              < CreditCardGateway.expiringEndOffset sampleSearchResult 0
          ∧ ¬ goSliceInBounds sampleSearchResult.IDs
              (CreditCardGateway.expiringStartOffset sampleSearchResult 0)
              (CreditCardGateway.expiringEndOffset sampleSearchResult 0))) :=
  ⟨⟨by decide, by decide, by decide, by decide, by decide, by decide, by decide,
      by decide⟩,
    claim_C9 sampleResult sampleSearchResult 2 0 (by decide) (by decide)
      (by decide) (by decide) (by decide) (by decide) (by decide) (by decide)⟩

end Braintree

/-- C10: for every Configuration and TransactionRequest of the stub package,
`NewGateway(config).Transaction().Sale(request)` is the zero
`TransactionResponse`, and `IsSuccess` is false on it and on every
`TransactionResponse`. -/
theorem claim_C10 (config : BraintreeV2.Configuration)
    (request : BraintreeV2.TransactionRequest) :
    ((BraintreeV2.NewGateway config).Transaction).Sale request
        = BraintreeV2.TransactionResponse.mk
      ∧ ∀ resp : BraintreeV2.TransactionResponse, resp.IsSuccess = false :=
  ⟨rfl, fun _ => rfl⟩
